import Mathlib

/-!
Shallow embedding of the cart-service core (offer tier resolver, cart
aggregation, checkout) of the Nodejs_Microservices_TDD_Cart repository.
Quantities are JavaScript numbers restricted to integers, modelled as `Int`
(`Math.floor (a / b)` is `Int.fdiv a b`, the `%` operator on non-negative
operands is `Int.tmod`, `Math.ceil (a / b)` is `-Int.fdiv (-a) b`); prices
and money amounts are modelled as exact rationals `ℚ`, with JavaScript
`Math.round x` (half toward +∞) as `⌊x + 1/2⌋`.
-/

/-- `OfferType` enum from `models/fruit.ts`. -/
inductive OfferType : Type
  | NONE
  | BUY_1_GET_1_FREE
  | BUY_2_GET_3_FREE
  | BUY_3_GET_5_FREE
  deriving DecidableEq, Repr

/-- `TransactionStatus` enum from `models/transactionHistory.ts`. -/
inductive TransactionStatus : Type
  | PENDING
  | COMPLETED
  | CANCELLED
  | REFUNDED
  | FAILED
  deriving DecidableEq, Repr

/-- `PaymentMethod` enum from `models/transactionHistory.ts`. -/
inductive PaymentMethod : Type
  | CASH
  | CREDIT_CARD
  | DEBIT_CARD
  | UPI
  | NET_BANKING
  | WALLET
  deriving DecidableEq, Repr

/-- JavaScript `Math.ceil (a / b)`: ceiling division, written through floor
division of the negation. -/
def mathCeilDiv (a b : Int) : Int := -(Int.fdiv (-a) b)

/-- `calculatePaidAndFree` from `cartService` (part_002, lines 21–98):
given a total quantity and an offer type, returns the `(paid, free)` split. -/
def calculatePaidAndFree (totalQuantity : Int) (offerType : OfferType) :
    Int × Int :=
  if totalQuantity ≤ 0 then (0, 0)
  else
    match offerType with
    | OfferType.BUY_1_GET_1_FREE =>
        -- cycle of 2 items: 1 paid + 1 free
        let cycleSize : Int := 2
        let paidPerCycle : Int := 1
        let completeCycles := Int.fdiv totalQuantity cycleSize
        let remainder := Int.tmod totalQuantity cycleSize
        let paid := completeCycles * paidPerCycle + remainder
        let free := totalQuantity - paid
        (paid, free)
    | OfferType.BUY_2_GET_3_FREE =>
        -- first cycle: pay 2, get 3 free (5 items total)
        let cycleSize : Int := 5
        let firstCyclePaid : Int := 2
        if totalQuantity ≤ cycleSize then
          let paid := min totalQuantity firstCyclePaid
          let free := totalQuantity - paid
          (paid, free)
        else
          let afterFirstCycle := totalQuantity - cycleSize
          let additionalPaid := mathCeilDiv afterFirstCycle cycleSize
          let paid := firstCyclePaid + additionalPaid
          let free := totalQuantity - paid
          (paid, free)
    | OfferType.BUY_3_GET_5_FREE =>
        -- first cycle: pay 3, get 5 free (8 items total)
        let cycleSize : Int := 8
        let firstCyclePaid : Int := 3
        if totalQuantity ≤ cycleSize then
          let paid := min totalQuantity firstCyclePaid
          let free := totalQuantity - paid
          (paid, free)
        else
          let afterFirstCycle := totalQuantity - cycleSize
          let additionalPaid := mathCeilDiv afterFirstCycle cycleSize
          let paid := firstCyclePaid + additionalPaid
          let free := totalQuantity - paid
          (paid, free)
    | OfferType.NONE => (totalQuantity, 0)

/-- The general first-cycle / steady-state policy exactly as the spec words
it (§4.1): for a tier with first-cycle total `C` and `firstPaid = F`, if
`totalQuantity ≤ C` then `paid = min totalQuantity F`, else
`paid = F + ceil ((totalQuantity - C) / C)`; `free = totalQuantity - paid`.
Stated from the spec, to be compared with `calculatePaidAndFree`. -/
def specResolvePolicy (totalQuantity C F : Int) : Int × Int :=
  if totalQuantity ≤ C then
    let paid := min totalQuantity F
    (paid, totalQuantity - paid)
  else
    let extra := totalQuantity - C
    let additionalPaid := mathCeilDiv extra C
    let paid := F + additionalPaid
    (paid, totalQuantity - paid)

/-- JavaScript `Math.round x`: nearest integer, halves toward `+∞`,
which is the floor of `x + 1/2`. -/
def mathRound (x : ℚ) : Int := ⌊x + 1 / 2⌋

/-- `Math.round (x * 100) / 100`: round a money amount to 2 decimal places,
as done in `calculateCartTotals`. -/
def round2 (x : ℚ) : ℚ := (mathRound (x * 100) : ℚ) / 100

/-- Catalog item, the fields of the `Fruit` model that the cart service
reads (`models/fruit.ts`). -/
structure Fruit : Type where
  name : String
  price : ℚ
  offerType : OfferType
  inStock : Bool
  stockQuantity : Int
  deriving DecidableEq, Repr

/-- `CartItem` from `types/index.ts`: one cart line. `quantity` is the paid
count and `freeItems` the free count (the `addedAt` timestamp is omitted). -/
structure CartItem : Type where
  fruitId : String
  name : String
  price : ℚ
  quantity : Int
  offerType : OfferType
  freeItems : Int
  deriving DecidableEq, Repr

/-- `Cart` from `types/index.ts` (the `updatedAt` timestamp is omitted). -/
structure Cart : Type where
  items : List CartItem
  totalItems : Int
  totalPrice : ℚ
  discountAmount : ℚ
  finalPrice : ℚ
  deriving DecidableEq, Repr

/-- The empty cart created lazily by `getInMemoryCart` / `addToCart`. -/
def emptyCart : Cart :=
  { items := [], totalItems := 0, totalPrice := 0, discountAmount := 0,
    finalPrice := 0 }

/-- Totals returned by `calculateCartTotals`. -/
structure CartTotals : Type where
  totalItems : Int
  totalPrice : ℚ
  discountAmount : ℚ
  finalPrice : ℚ
  deriving DecidableEq, Repr

/-- `calculateDiscount` (part_002, lines 101–106): sum over items of
`freeItems * price`. -/
def calculateDiscount (items : List CartItem) : ℚ :=
  items.foldl (fun discount item => discount + (item.freeItems : ℚ) * item.price) 0

/-- `calculateCartTotals` (part_002, lines 108–125): folds over the items,
then rounds the three money amounts to 2 decimal places independently. -/
def calculateCartTotals (items : List CartItem) : CartTotals :=
  let totalItems := items.foldl (fun sum item => sum + item.quantity + item.freeItems) 0
  let totalPrice :=
    items.foldl (fun sum item => sum + item.price * ((item.quantity : ℚ) + (item.freeItems : ℚ))) 0
  let discountAmount := calculateDiscount items
  let finalPrice := totalPrice - discountAmount
  { totalItems := totalItems
    totalPrice := round2 totalPrice
    discountAmount := round2 discountAmount
    finalPrice := round2 finalPrice }

/-- The final step of every cart mutation: store the recomputed totals on
the cart. -/
def storeTotals (items : List CartItem) : Cart :=
  let totals := calculateCartTotals items
  { items := items
    totalItems := totals.totalItems
    totalPrice := totals.totalPrice
    discountAmount := totals.discountAmount
    finalPrice := totals.finalPrice }

/-- `addToCart` (part_002, lines 190–290), with the catalog lookup as an
explicit function and `none` for the thrown errors (fruit not found /
out of stock). Both the in-memory and the MongoDB paths perform the same
state transformation. -/
def addToCart (catalog : String → Option Fruit) (cart : Cart)
    (fruitId : String) (quantity : Int) : Option Cart :=
  match catalog fruitId with
  | none => none
  | some fruit =>
    if ¬fruit.inStock ∨ fruit.stockQuantity < quantity then none
    else
      let existingItemIndex := cart.items.findIdx (fun item => item.fruitId == fruitId)
      if h : existingItemIndex < cart.items.length then
        let existingItem := cart.items.get ⟨existingItemIndex, h⟩
        let totalQuantity := existingItem.quantity + existingItem.freeItems + quantity
        let pf := calculatePaidAndFree totalQuantity fruit.offerType
        some (storeTotals (cart.items.set existingItemIndex
          { existingItem with quantity := pf.1, freeItems := pf.2 }))
      else
        let pf := calculatePaidAndFree quantity fruit.offerType
        let newItem : CartItem :=
          { fruitId := fruitId, name := fruit.name, price := fruit.price,
            quantity := pf.1, offerType := fruit.offerType, freeItems := pf.2 }
        some (storeTotals (cart.items ++ [newItem]))

/-- `updateCartItem` (part_002, lines 292–355): `none` when no line exists
for the fruit (NOT_FOUND); quantity `≤ 0` removes the line; otherwise the
given quantity is treated as the new total and resolved against the offer
type already stored on the line. -/
def updateCartItem (cart : Cart) (fruitId : String) (quantity : Int) :
    Option Cart :=
  let itemIndex := cart.items.findIdx (fun item => item.fruitId == fruitId)
  if h : itemIndex < cart.items.length then
    if quantity ≤ 0 then
      some (storeTotals (cart.items.eraseIdx itemIndex))
    else
      let item := cart.items.get ⟨itemIndex, h⟩
      let pf := calculatePaidAndFree quantity item.offerType
      some (storeTotals (cart.items.set itemIndex
        { item with quantity := pf.1, freeItems := pf.2 }))
  else none

/-- `removeFromCart` (part_002, lines 357–402): `none` when no line exists,
otherwise the line is removed and totals recomputed. -/
def removeFromCart (cart : Cart) (fruitId : String) : Option Cart :=
  let itemIndex := cart.items.findIdx (fun item => item.fruitId == fruitId)
  if itemIndex < cart.items.length then
    some (storeTotals (cart.items.eraseIdx itemIndex))
  else none

/-- The three cart mutations the spec's totals invariant ranges over. -/
inductive CartMutation : Type
  | add (fruitId : String) (quantity : Int)
  | update (fruitId : String) (quantity : Int)
  | remove (fruitId : String)
  deriving DecidableEq, Repr

/-- Dispatch one cart mutation; `none` means the operation failed and the
stored cart is unchanged. -/
def applyMutation (catalog : String → Option Fruit) (m : CartMutation)
    (cart : Cart) : Option Cart :=
  match m with
  | CartMutation.add fruitId quantity => addToCart catalog cart fruitId quantity
  | CartMutation.update fruitId quantity => updateCartItem cart fruitId quantity
  | CartMutation.remove fruitId => removeFromCart cart fruitId

/-- `ITransactionItem` from `models/transactionHistory.ts`. -/
structure TransactionItem : Type where
  fruitId : String
  fruitName : String
  quantity : Int
  pricePerUnit : ℚ
  offerApplied : OfferType
  freeItemsReceived : Int
  subtotal : ℚ
  deriving DecidableEq, Repr

/-- The transaction record built by `checkout` (part_002, lines 503–513);
`userId`, timestamps and the auto-generated id are omitted. -/
structure TransactionRecord : Type where
  items : List TransactionItem
  totalAmount : ℚ
  discountAmount : ℚ
  finalAmount : ℚ
  currency : String
  paymentMethod : PaymentMethod
  status : TransactionStatus
  notes : Option String
  deriving DecidableEq, Repr

/-- Errors thrown by `checkout`; wallet-branch errors are caught and
re-thrown wrapped in a `Wallet payment failed:` message (part_002,
lines 479–482). -/
inductive CheckoutError : Type
  | cartEmpty
  | invalidPaymentMethod
  | walletPaymentFailed (message : String)
  deriving DecidableEq, Repr

/-- The message of the error thrown when the wallet balance is below the
cart's final price (part_002, line 471); the spec labels this failure
INSUFFICIENT_BALANCE. -/
def insufficientBalanceMessage : String := "Insufficient wallet balance"

/-- JavaScript `.toUpperCase()`: character-wise uppercase. -/
def jsToUpper (s : String) : String := String.mk (s.data.map Char.toUpper)

/-- `checkoutData.paymentMethod.toUpperCase()` checked for membership in
the `PaymentMethod` enum (part_002, lines 456–459). -/
def toPaymentMethod (s : String) : Option PaymentMethod :=
  if s = "CASH" then some PaymentMethod.CASH
  else if s = "CREDIT_CARD" then some PaymentMethod.CREDIT_CARD
  else if s = "DEBIT_CARD" then some PaymentMethod.DEBIT_CARD
  else if s = "UPI" then some PaymentMethod.UPI
  else if s = "NET_BANKING" then some PaymentMethod.NET_BANKING
  else if s = "WALLET" then some PaymentMethod.WALLET
  else none

/-- Mapping of a cart line to a transaction item (part_002, lines 486–500):
`quantity` is the line's paid count and `subtotal = price * quantity`. -/
def toTransactionItem (item : CartItem) : TransactionItem :=
  { fruitId := item.fruitId
    fruitName := item.name
    quantity := item.quantity
    pricePerUnit := item.price
    offerApplied := item.offerType
    freeItemsReceived := item.freeItems
    subtotal := item.price * (item.quantity : ℚ) }

/-- Observable outcome of one `checkout` call: the returned transaction or
the thrown error, the amount whose deduction was requested from the
balance service (`none` when no deduct call was issued), and the cart
state afterwards (`none` when the cart record was deleted). -/
structure CheckoutOutcome : Type where
  result : Except CheckoutError TransactionRecord
  deductRequested : Option ℚ
  cartAfter : Option Cart
  deriving Repr

/-- `checkout` (part_002, lines 430–562), with the balance service's
reported balance as an explicit argument. Empty cart throws; an
unrecognized payment method throws; with WALLET, a balance below the
cart's final price throws before any deduct request; otherwise the
transaction is built with status COMPLETED and the cart is deleted. -/
def checkout (cart : Cart) (paymentMethodRaw : String) (notes : Option String)
    (walletBalance : ℚ) : CheckoutOutcome :=
  if cart.items.isEmpty then
    { result := Except.error CheckoutError.cartEmpty
      deductRequested := none, cartAfter := some cart }
  else
    match toPaymentMethod (jsToUpper paymentMethodRaw) with
    | none =>
        { result := Except.error CheckoutError.invalidPaymentMethod
          deductRequested := none, cartAfter := some cart }
    | some paymentMethod =>
        let complete : Option ℚ → CheckoutOutcome := fun deduct =>
          let transactionItems := cart.items.map toTransactionItem
          let transaction : TransactionRecord :=
            { items := transactionItems
              totalAmount := cart.totalPrice
              discountAmount := cart.discountAmount
              finalAmount := cart.finalPrice
              currency := "INR"
              paymentMethod := paymentMethod
              status := TransactionStatus.COMPLETED
              notes := notes }
          { result := Except.ok transaction
            deductRequested := deduct, cartAfter := none }
        if paymentMethod = PaymentMethod.WALLET then
          if walletBalance < cart.finalPrice then
            { result := Except.error
                (CheckoutError.walletPaymentFailed insufficientBalanceMessage)
              deductRequested := none, cartAfter := some cart }
          else complete (some cart.finalPrice)
        else complete none

/-- Spec §3: `totalItems = Σ (paid + free)` over the lines. -/
def specTotalItems (items : List CartItem) : Int :=
  (items.map (fun item => item.quantity + item.freeItems)).sum

/-- Spec §3: raw (unrounded) `totalPrice = Σ unitPrice * (paid + free)`. -/
def specRawTotalPrice (items : List CartItem) : ℚ :=
  (items.map (fun item => item.price * ((item.quantity : ℚ) + (item.freeItems : ℚ)))).sum

/-- Spec §3: raw (unrounded) `discountAmount = Σ unitPrice * free`. -/
def specRawDiscount (items : List CartItem) : ℚ :=
  (items.map (fun item => item.price * (item.freeItems : ℚ))).sum

/-- Spec §3 cart invariant: each stored total is its raw fold over the
lines, the three money amounts rounded to 2 decimal places independently;
in particular the stored final price is exactly
`round2 (rawTotalPrice - rawDiscount)`. -/
def cartInvariant (cart : Cart) : Prop :=
  cart.totalItems = specTotalItems cart.items ∧
  cart.totalPrice = round2 (specRawTotalPrice cart.items) ∧
  cart.discountAmount = round2 (specRawDiscount cart.items) ∧
  cart.finalPrice = round2 (specRawTotalPrice cart.items - specRawDiscount cart.items)

instance (cart : Cart) : Decidable (cartInvariant cart) := by
  unfold cartInvariant; infer_instance

/-! ## Concrete fixtures used to instantiate the theorems -/

/-- Demo catalog entry used to instantiate the cart theorems. -/
def appleFruit : Fruit :=
  { name := "Apple", price := 10, offerType := OfferType.BUY_1_GET_1_FREE,
    inStock := true, stockQuantity := 100 }

/-- Demo catalog with a single item. -/
def demoCatalog : String → Option Fruit :=
  fun fruitId => if fruitId = "apple" then some appleFruit else none

/-- The cart produced by adding 2 apples to the empty cart. -/
def cartAfterAdd2 : Cart :=
  { items := [{ fruitId := "apple", name := "Apple", price := 10, quantity := 1,
                offerType := OfferType.BUY_1_GET_1_FREE, freeItems := 1 }],
    totalItems := 2, totalPrice := 20, discountAmount := 10, finalPrice := 10 }

/-- The cart after adding 2 apples and then 3 more: one line, paid 3,
free 2. -/
def cartAfterAdd5 : Cart :=
  { items := [{ fruitId := "apple", name := "Apple", price := 10, quantity := 3,
                offerType := OfferType.BUY_1_GET_1_FREE, freeItems := 2 }],
    totalItems := 5, totalPrice := 50, discountAmount := 20, finalPrice := 30 }

/-- The transaction produced by checking out `cartAfterAdd2` with CASH. -/
def demoTransactionItem : TransactionItem :=
  { fruitId := "apple"
    fruitName := "Apple"
    quantity := 1
    pricePerUnit := 10
    offerApplied := OfferType.BUY_1_GET_1_FREE
    freeItemsReceived := 1
    subtotal := 10 }

def demoTransaction : TransactionRecord :=
  { items := [demoTransactionItem]
    totalAmount := 20
    discountAmount := 10
    finalAmount := 10
    currency := "INR"
    paymentMethod := PaymentMethod.CASH
    status := TransactionStatus.COMPLETED
    notes := none }

/-- Catalog item with only 6 units of stock. -/
def limitedFruit : Fruit :=
  { name := "Pear", price := 5, offerType := OfferType.BUY_2_GET_3_FREE,
    inStock := true, stockQuantity := 6 }

/-- Catalog with a single item of limited stock. -/
def limitedCatalog : String → Option Fruit :=
  fun fruitId => if fruitId = "pear" then some limitedFruit else none

/-- A cart already holding 5 units (paid 3, free 2) of the limited item. -/
def pearCart : Cart :=
  { items := [{ fruitId := "pear", name := "Pear", price := 5, quantity := 3,
                offerType := OfferType.BUY_2_GET_3_FREE, freeItems := 2 }],
    totalItems := 5, totalPrice := 25, discountAmount := 10, finalPrice := 15 }

/-! ## Closed forms of the resolver branches -/

theorem calculatePaidAndFree_nonpos (q : Int) (t : OfferType) (h : q ≤ 0) :
    calculatePaidAndFree q t = (0, 0) := by
  unfold calculatePaidAndFree
  rw [if_pos h]

theorem calculatePaidAndFree_none_pos (q : Int) (h : 0 < q) :
    calculatePaidAndFree q OfferType.NONE = (q, 0) := by
  unfold calculatePaidAndFree
  rw [if_neg (by omega)]

theorem calculatePaidAndFree_b1g1 (q : Int) (h : 0 < q) :
    calculatePaidAndFree q OfferType.BUY_1_GET_1_FREE =
      (q / 2 * 1 + q % 2, q - (q / 2 * 1 + q % 2)) := by
  unfold calculatePaidAndFree
  rw [if_neg (by omega)]
  show (Int.fdiv q 2 * 1 + Int.tmod q 2, q - (Int.fdiv q 2 * 1 + Int.tmod q 2)) = _
  rw [Int.fdiv_eq_ediv _ (by norm_num), Int.tmod_eq_emod (by omega) (by norm_num)]

theorem calculatePaidAndFree_b2g3_first (q : Int) (h0 : 0 < q) (h : q ≤ 5) :
    calculatePaidAndFree q OfferType.BUY_2_GET_3_FREE =
      (min q 2, q - min q 2) := by
  unfold calculatePaidAndFree
  rw [if_neg (by omega)]
  show (if q ≤ 5 then _ else _) = _
  rw [if_pos h]

theorem calculatePaidAndFree_b2g3_steady (q : Int) (h : 5 < q) :
    calculatePaidAndFree q OfferType.BUY_2_GET_3_FREE =
      (2 + -(-(q - 5) / 5), q - (2 + -(-(q - 5) / 5))) := by
  unfold calculatePaidAndFree
  rw [if_neg (by omega)]
  show (if q ≤ 5 then _ else _) = _
  rw [if_neg (by omega)]
  show (2 + mathCeilDiv (q - 5) 5, q - (2 + mathCeilDiv (q - 5) 5)) = _
  unfold mathCeilDiv
  rw [Int.fdiv_eq_ediv _ (by norm_num)]

theorem calculatePaidAndFree_b3g5_first (q : Int) (h0 : 0 < q) (h : q ≤ 8) :
    calculatePaidAndFree q OfferType.BUY_3_GET_5_FREE =
      (min q 3, q - min q 3) := by
  unfold calculatePaidAndFree
  rw [if_neg (by omega)]
  show (if q ≤ 8 then _ else _) = _
  rw [if_pos h]

theorem calculatePaidAndFree_b3g5_steady (q : Int) (h : 8 < q) :
    calculatePaidAndFree q OfferType.BUY_3_GET_5_FREE =
      (3 + -(-(q - 8) / 8), q - (3 + -(-(q - 8) / 8))) := by
  unfold calculatePaidAndFree
  rw [if_neg (by omega)]
  show (if q ≤ 8 then _ else _) = _
  rw [if_neg (by omega)]
  show (3 + mathCeilDiv (q - 8) 8, q - (3 + mathCeilDiv (q - 8) 8)) = _
  unfold mathCeilDiv
  rw [Int.fdiv_eq_ediv _ (by norm_num)]

/-! ## Claims about the offer tier resolver -/

/-- C1: for every non-negative integer `totalQuantity` and every offer tier,
`calculatePaidAndFree` returns a pair `(paid, free)` with
`paid + free = totalQuantity`, `paid ≥ 0` and `free ≥ 0`; and for
`totalQuantity ≤ 0` it returns `(0, 0)`. -/
theorem resolver_contract (q : Int) (t : OfferType) :
    (0 ≤ q →
      (calculatePaidAndFree q t).1 + (calculatePaidAndFree q t).2 = q ∧
      0 ≤ (calculatePaidAndFree q t).1 ∧ 0 ≤ (calculatePaidAndFree q t).2) ∧
    (q ≤ 0 → calculatePaidAndFree q t = (0, 0)) := by
  refine ⟨?_, calculatePaidAndFree_nonpos q t⟩
  intro hq
  rcases eq_or_lt_of_le hq with h0 | h0
  · rw [calculatePaidAndFree_nonpos q t (by omega)]
    dsimp only
    omega
  · cases t with
    | NONE =>
        rw [calculatePaidAndFree_none_pos q h0]; dsimp only; omega
    | BUY_1_GET_1_FREE =>
        rw [calculatePaidAndFree_b1g1 q h0]; dsimp only; omega
    | BUY_2_GET_3_FREE =>
        by_cases h5 : q ≤ 5
        · rw [calculatePaidAndFree_b2g3_first q h0 h5]; dsimp only; omega
        · rw [calculatePaidAndFree_b2g3_steady q (by omega)]; dsimp only; omega
    | BUY_3_GET_5_FREE =>
        by_cases h8 : q ≤ 8
        · rw [calculatePaidAndFree_b3g5_first q h0 h8]; dsimp only; omega
        · rw [calculatePaidAndFree_b3g5_steady q (by omega)]; dsimp only; omega

theorem resolver_contract_witness :
    (calculatePaidAndFree 7 OfferType.BUY_2_GET_3_FREE).1 +
      (calculatePaidAndFree 7 OfferType.BUY_2_GET_3_FREE).2 = 7 ∧
    0 ≤ (calculatePaidAndFree 7 OfferType.BUY_2_GET_3_FREE).1 ∧
    0 ≤ (calculatePaidAndFree 7 OfferType.BUY_2_GET_3_FREE).2 :=
  (resolver_contract 7 OfferType.BUY_2_GET_3_FREE).1 (by decide)

/-- C2: the resolver reproduces the spec's worked table exactly for all
three tiers, and for the two larger tiers it agrees with the general
first-cycle / steady-state policy (`C = 5, F = 2` for BUY_2_GET_3_FREE;
`C = 8, F = 3` for BUY_3_GET_5_FREE) at every non-negative quantity. -/
theorem resolver_worked_table_policy :
    (∀ q : Int, 0 ≤ q →
      calculatePaidAndFree q OfferType.BUY_2_GET_3_FREE = specResolvePolicy q 5 2 ∧
      calculatePaidAndFree q OfferType.BUY_3_GET_5_FREE = specResolvePolicy q 8 3) ∧
    ((∀ q ∈ [(1, 1, 0), (2, 1, 1), (3, 2, 1), (4, 2, 2), (5, 3, 2)],
        calculatePaidAndFree q.1 OfferType.BUY_1_GET_1_FREE = (q.2.1, q.2.2)) ∧
     (∀ q ∈ [(1, 1, 0), (2, 2, 0), (3, 2, 1), (4, 2, 2), (5, 2, 3), (6, 3, 3),
        (7, 3, 4), (8, 3, 5), (9, 3, 6), (10, 3, 7), (11, 4, 7)],
        calculatePaidAndFree q.1 OfferType.BUY_2_GET_3_FREE = (q.2.1, q.2.2)) ∧
     (∀ q ∈ [((1 : Int), (1 : Int), (0 : Int)), (2, 2, 0), (3, 3, 0), (4, 3, 1),
        (5, 3, 2), (6, 3, 3), (7, 3, 4), (8, 3, 5), (9, 4, 5), (10, 4, 6),
        (11, 4, 7), (12, 4, 8), (13, 4, 9), (14, 4, 10), (15, 4, 11), (16, 4, 12),
        (17, 5, 12), (18, 5, 13), (19, 5, 14), (20, 5, 15), (21, 5, 16),
        (22, 5, 17), (23, 5, 18), (24, 5, 19)],
        calculatePaidAndFree q.1 OfferType.BUY_3_GET_5_FREE = (q.2.1, q.2.2))) := by
  constructor
  · intro q hq
    constructor
    · by_cases h0 : q ≤ 0
      · have hq0 : q = 0 := le_antisymm h0 hq
        subst hq0; decide
      · by_cases h5 : q ≤ 5
        · rw [calculatePaidAndFree_b2g3_first q (by omega) h5]
          unfold specResolvePolicy
          rw [if_pos h5]
        · rw [calculatePaidAndFree_b2g3_steady q (by omega)]
          unfold specResolvePolicy mathCeilDiv
          rw [if_neg h5]
          dsimp only
          rw [Int.fdiv_eq_ediv _ (by norm_num)]
    · by_cases h0 : q ≤ 0
      · have hq0 : q = 0 := le_antisymm h0 hq
        subst hq0; decide
      · by_cases h8 : q ≤ 8
        · rw [calculatePaidAndFree_b3g5_first q (by omega) h8]
          unfold specResolvePolicy
          rw [if_pos h8]
        · rw [calculatePaidAndFree_b3g5_steady q (by omega)]
          unfold specResolvePolicy mathCeilDiv
          rw [if_neg h8]
          dsimp only
          rw [Int.fdiv_eq_ediv _ (by norm_num)]
  · exact ⟨by decide, by decide, by decide⟩

theorem resolver_worked_table_policy_witness :
    calculatePaidAndFree 7 OfferType.BUY_2_GET_3_FREE = specResolvePolicy 7 5 2 :=
  (resolver_worked_table_policy.1 7 (by decide)).1

/-- C3: the special-cased BUY_1_GET_1_FREE formula (complete cycles of 2
plus remainder) agrees with the general first-cycle / steady-state policy
instantiated at `F = 1`, `C = 2`, at every non-negative quantity. -/
theorem buy1get1_matches_policy (q : Int) (hq : 0 ≤ q) :
    calculatePaidAndFree q OfferType.BUY_1_GET_1_FREE = specResolvePolicy q 2 1 := by
  by_cases h2 : q ≤ 2
  · interval_cases q <;> decide
  · rw [calculatePaidAndFree_b1g1 q (by omega)]
    unfold specResolvePolicy mathCeilDiv
    rw [if_neg h2]
    dsimp only
    rw [Int.fdiv_eq_ediv _ (by norm_num)]
    simp only [Prod.mk.injEq]
    omega

theorem buy1get1_matches_policy_witness :
    calculatePaidAndFree 9 OfferType.BUY_1_GET_1_FREE = specResolvePolicy 9 2 1 :=
  buy1get1_matches_policy 9 (by decide)

/-! ## Cart aggregation: the totals invariant -/

theorem foldl_add_map {M : Type} [AddCommMonoid M] (f : CartItem → M)
    (l : List CartItem) (a : M) :
    l.foldl (fun s item => s + f item) a = a + (l.map f).sum := by
  induction l generalizing a with
  | nil => simp
  | cons x xs ih =>
      simp only [List.foldl_cons, List.map_cons, List.sum_cons, ih, add_assoc]

theorem storeTotals_invariant (items : List CartItem) :
    cartInvariant (storeTotals items) := by
  have hti : items.foldl (fun sum item => sum + item.quantity + item.freeItems) 0
      = specTotalItems items := by
    have h : (fun (sum : Int) (item : CartItem) => sum + item.quantity + item.freeItems)
        = fun (sum : Int) (item : CartItem) => sum + (item.quantity + item.freeItems) := by
      funext sum item; ring
    rw [h, foldl_add_map, zero_add, specTotalItems]
  have htp : items.foldl
      (fun sum item => sum + item.price * ((item.quantity : ℚ) + (item.freeItems : ℚ))) 0
      = specRawTotalPrice items := by
    rw [foldl_add_map, zero_add, specRawTotalPrice]
  have hd : calculateDiscount items = specRawDiscount items := by
    have hfg : (fun (item : CartItem) => (item.freeItems : ℚ) * item.price)
        = fun (item : CartItem) => item.price * (item.freeItems : ℚ) := by
      funext item; ring
    unfold calculateDiscount specRawDiscount
    rw [foldl_add_map, zero_add, hfg]
  unfold cartInvariant storeTotals calculateCartTotals
  dsimp only
  exact ⟨hti, by rw [htp], by rw [hd], by rw [htp, hd]⟩

theorem addToCart_shape (catalog : String → Option Fruit) (cart : Cart)
    (fruitId : String) (quantity : Int) :
    addToCart catalog cart fruitId quantity = none ∨
    ∃ items, addToCart catalog cart fruitId quantity = some (storeTotals items) := by
  unfold addToCart
  cases hcat : catalog fruitId with
  | none => exact Or.inl rfl
  | some fruit =>
      dsimp only
      by_cases hstock : ¬fruit.inStock ∨ fruit.stockQuantity < quantity
      · rw [if_pos hstock]
        exact Or.inl rfl
      · rw [if_neg hstock]
        by_cases h : List.findIdx (fun item => item.fruitId == fruitId) cart.items
            < cart.items.length
        · rw [dif_pos h]
          exact Or.inr ⟨_, rfl⟩
        · rw [dif_neg h]
          exact Or.inr ⟨_, rfl⟩

theorem updateCartItem_shape (cart : Cart) (fruitId : String) (quantity : Int) :
    updateCartItem cart fruitId quantity = none ∨
    ∃ items, updateCartItem cart fruitId quantity = some (storeTotals items) := by
  unfold updateCartItem
  dsimp only
  by_cases h : List.findIdx (fun item => item.fruitId == fruitId) cart.items
      < cart.items.length
  · rw [dif_pos h]
    by_cases hq : quantity ≤ 0
    · rw [if_pos hq]
      exact Or.inr ⟨_, rfl⟩
    · rw [if_neg hq]
      exact Or.inr ⟨_, rfl⟩
  · rw [dif_neg h]
    exact Or.inl rfl

theorem removeFromCart_shape (cart : Cart) (fruitId : String) :
    removeFromCart cart fruitId = none ∨
    ∃ items, removeFromCart cart fruitId = some (storeTotals items) := by
  unfold removeFromCart
  dsimp only
  by_cases h : List.findIdx (fun item => item.fruitId == fruitId) cart.items
      < cart.items.length
  · rw [if_pos h]
    exact Or.inr ⟨_, rfl⟩
  · rw [if_neg h]
    exact Or.inl rfl

/-- C4: after every successful cart mutation (add, update, remove) — hence
after every successful step of an arbitrary sequence of such mutations —
the stored totals are exactly the spec's folds over the lines,
`totalItems = Σ (paid + free)`, `totalPrice = round2 (Σ price * (paid + free))`,
`discountAmount = round2 (Σ price * free)`, and
`finalPrice = round2 (totalPrice - discountAmount)` exactly. -/
theorem mutation_preserves_cart_invariant (catalog : String → Option Fruit)
    (m : CartMutation) (cart cart' : Cart)
    (h : applyMutation catalog m cart = some cart') :
    cartInvariant cart' := by
  have hshape : applyMutation catalog m cart = none ∨
      ∃ items, applyMutation catalog m cart = some (storeTotals items) := by
    cases m with
    | add fruitId quantity => exact addToCart_shape catalog cart fruitId quantity
    | update fruitId quantity => exact updateCartItem_shape cart fruitId quantity
    | remove fruitId => exact removeFromCart_shape cart fruitId
  rcases hshape with hnone | ⟨items, hsome⟩
  · rw [hnone] at h
    cases h
  · rw [hsome] at h
    injection h with h
    rw [← h]
    exact storeTotals_invariant items

theorem demo_add2_eq :
    applyMutation demoCatalog (CartMutation.add "apple" 2) emptyCart =
      some cartAfterAdd2 := by
  have hpf : calculatePaidAndFree 2 OfferType.BUY_1_GET_1_FREE = (1, 1) := by
    decide
  simp only [applyMutation, addToCart, demoCatalog, appleFruit, emptyCart]
  norm_num [List.findIdx, List.findIdx.go, storeTotals, calculateCartTotals,
    calculateDiscount, hpf, round2, mathRound, cartAfterAdd2]

theorem mutation_preserves_cart_invariant_witness : cartInvariant cartAfterAdd2 :=
  mutation_preserves_cart_invariant demoCatalog (CartMutation.add "apple" 2)
    emptyCart cartAfterAdd2 demo_add2_eq

/-! ## Claims about addToCart and updateCartItem -/

/-- C5: when `addToCart` finds an existing line, the quantity it resolves
is `existingPaid + existingFree + requestedQty`, the tier is the item's
current catalog tier (`fruit.offerType`, not the tier stored on the line),
and the line's pair is replaced with the resolver's output; and adding
quantity 2 then quantity 3 of the same BUY_1_GET_1_FREE item yields a
single line with paid 3 and free 2. -/
theorem addToCart_existing_line_spec :
    (∀ (catalog : String → Option Fruit) (cart : Cart) (fruitId : String)
        (quantity : Int) (fruit : Fruit) (existingItem : CartItem),
      catalog fruitId = some fruit →
      ¬(¬fruit.inStock ∨ fruit.stockQuantity < quantity) →
      cart.items[cart.items.findIdx (fun item => item.fruitId == fruitId)]?
          = some existingItem →
      addToCart catalog cart fruitId quantity =
        some (storeTotals (cart.items.set
          (cart.items.findIdx (fun item => item.fruitId == fruitId))
          { existingItem with
            quantity := (calculatePaidAndFree
              (existingItem.quantity + existingItem.freeItems + quantity)
              fruit.offerType).1,
            freeItems := (calculatePaidAndFree
              (existingItem.quantity + existingItem.freeItems + quantity)
              fruit.offerType).2 }))) ∧
    (addToCart demoCatalog emptyCart "apple" 2).bind
        (fun cart => addToCart demoCatalog cart "apple" 3) = some cartAfterAdd5 := by
  constructor
  · intro catalog cart fruitId quantity fruit existingItem hcat hstock hget
    rw [List.getElem?_eq_some] at hget
    obtain ⟨hlt, hitem⟩ := hget
    unfold addToCart
    rw [hcat]
    dsimp only
    rw [if_neg hstock, dif_pos hlt]
    have hgot : cart.items.get
        ⟨cart.items.findIdx (fun item => item.fruitId == fruitId), hlt⟩
        = existingItem := by
      simpa [List.get_eq_getElem] using hitem
    rw [hgot]
  · have h1 : addToCart demoCatalog emptyCart "apple" 2 = some cartAfterAdd2 :=
      demo_add2_eq
    rw [h1]
    show addToCart demoCatalog cartAfterAdd2 "apple" 3 = some cartAfterAdd5
    have hpf : calculatePaidAndFree 5 OfferType.BUY_1_GET_1_FREE = (3, 2) := by
      decide
    simp only [addToCart, demoCatalog, appleFruit, cartAfterAdd2]
    norm_num [List.findIdx, List.findIdx.go, storeTotals, calculateCartTotals,
      calculateDiscount, hpf, round2, mathRound, cartAfterAdd5, List.set]

theorem addToCart_existing_line_spec_witness :
    addToCart demoCatalog cartAfterAdd2 "apple" 3 =
      some (storeTotals (cartAfterAdd2.items.set 0
        { fruitId := "apple", name := "Apple", price := 10, quantity := 3,
          offerType := OfferType.BUY_1_GET_1_FREE, freeItems := 2 })) :=
  addToCart_existing_line_spec.1 demoCatalog cartAfterAdd2 "apple" 3 appleFruit
    { fruitId := "apple", name := "Apple", price := 10, quantity := 1,
      offerType := OfferType.BUY_1_GET_1_FREE, freeItems := 1 }
    rfl (by decide) rfl

/-- C6: `updateCartItem` interprets the quantity as the absolute new total:
with no line for the id it returns `none` (NOT_FOUND, cart unchanged);
with a line and quantity `≤ 0` the line is removed; otherwise the line is
resolved afresh against the tier already stored on the line, and in every
successful case the totals are recomputed from the new lines. -/
theorem updateCartItem_spec (cart : Cart) (fruitId : String) (quantity : Int) :
    (¬ cart.items.findIdx (fun item => item.fruitId == fruitId)
          < cart.items.length →
      updateCartItem cart fruitId quantity = none) ∧
    (cart.items.findIdx (fun item => item.fruitId == fruitId)
          < cart.items.length →
      quantity ≤ 0 →
      updateCartItem cart fruitId quantity =
        some (storeTotals (cart.items.eraseIdx
          (cart.items.findIdx (fun item => item.fruitId == fruitId))))) ∧
    (∀ existingItem : CartItem,
      cart.items[cart.items.findIdx (fun item => item.fruitId == fruitId)]?
          = some existingItem →
      0 < quantity →
      updateCartItem cart fruitId quantity =
        some (storeTotals (cart.items.set
          (cart.items.findIdx (fun item => item.fruitId == fruitId))
          { existingItem with
            quantity := (calculatePaidAndFree quantity existingItem.offerType).1,
            freeItems :=
              (calculatePaidAndFree quantity existingItem.offerType).2 }))) := by
  refine ⟨?_, ?_, ?_⟩
  · intro h
    unfold updateCartItem
    dsimp only
    rw [dif_neg h]
  · intro h hq
    unfold updateCartItem
    dsimp only
    rw [dif_pos h, if_pos hq]
  · intro existingItem hget hq
    rw [List.getElem?_eq_some] at hget
    obtain ⟨hlt, hitem⟩ := hget
    unfold updateCartItem
    dsimp only
    rw [dif_pos hlt, if_neg (by omega)]
    have hgot : cart.items.get
        ⟨cart.items.findIdx (fun item => item.fruitId == fruitId), hlt⟩
        = existingItem := by
      simpa [List.get_eq_getElem] using hitem
    rw [hgot]

theorem updateCartItem_spec_witness :
    updateCartItem cartAfterAdd2 "apple" 4 =
      some (storeTotals (cartAfterAdd2.items.set 0
        { fruitId := "apple", name := "Apple", price := 10, quantity := 2,
          offerType := OfferType.BUY_1_GET_1_FREE, freeItems := 2 })) :=
  (updateCartItem_spec cartAfterAdd2 "apple" 4).2.2
    { fruitId := "apple", name := "Apple", price := 10, quantity := 1,
      offerType := OfferType.BUY_1_GET_1_FREE, freeItems := 1 }
    rfl (by decide)

/-! ## Claims about checkout -/

/-- C7: a transaction built by a successful checkout has status COMPLETED,
its item entries are exactly the cart lines mapped through
`toTransactionItem`, and each entry's subtotal is
`pricePerUnit * paid quantity` with the free quantity recorded separately
and unpriced. -/
theorem checkout_transaction_spec (cart : Cart) (paymentMethodRaw : String)
    (notes : Option String) (walletBalance : ℚ) (tx : TransactionRecord)
    (h : (checkout cart paymentMethodRaw notes walletBalance).result =
      Except.ok tx) :
    tx.status = TransactionStatus.COMPLETED ∧
    tx.items = cart.items.map toTransactionItem ∧
    ∀ item ∈ cart.items,
      (toTransactionItem item).subtotal = item.price * (item.quantity : ℚ) ∧
      (toTransactionItem item).quantity = item.quantity ∧
      (toTransactionItem item).freeItemsReceived = item.freeItems := by
  have hitems : ∀ item ∈ cart.items,
      (toTransactionItem item).subtotal = item.price * (item.quantity : ℚ) ∧
      (toTransactionItem item).quantity = item.quantity ∧
      (toTransactionItem item).freeItemsReceived = item.freeItems :=
    fun item _ => ⟨rfl, rfl, rfl⟩
  unfold checkout at h
  by_cases hempty : cart.items.isEmpty
  · rw [if_pos hempty] at h
    simp at h
  · rw [if_neg hempty] at h
    cases hpm : toPaymentMethod (jsToUpper paymentMethodRaw) with
    | none =>
        rw [hpm] at h
        simp at h
    | some pm =>
        rw [hpm] at h
        dsimp only at h
        by_cases hw : pm = PaymentMethod.WALLET
        · rw [if_pos hw] at h
          by_cases hbal : walletBalance < cart.finalPrice
          · rw [if_pos hbal] at h
            simp at h
          · rw [if_neg hbal] at h
            dsimp only at h
            injection h with h
            rw [← h]
            exact ⟨rfl, rfl, hitems⟩
        · rw [if_neg hw] at h
          dsimp only at h
          injection h with h
          rw [← h]
          exact ⟨rfl, rfl, hitems⟩

theorem demo_checkout_eq :
    (checkout cartAfterAdd2 "CASH" none 0).result = Except.ok demoTransaction := by
  have hpm : toPaymentMethod (jsToUpper "CASH") = some PaymentMethod.CASH := by
    decide
  unfold checkout
  rw [if_neg (by decide : ¬ cartAfterAdd2.items.isEmpty = true), hpm]
  dsimp only
  rw [if_neg (by decide : ¬ PaymentMethod.CASH = PaymentMethod.WALLET)]
  dsimp only
  norm_num [cartAfterAdd2, toTransactionItem, demoTransaction,
    demoTransactionItem]

theorem checkout_transaction_spec_witness :
    demoTransaction.status = TransactionStatus.COMPLETED ∧
    demoTransaction.items = cartAfterAdd2.items.map toTransactionItem ∧
    ∀ item ∈ cartAfterAdd2.items,
      (toTransactionItem item).subtotal = item.price * (item.quantity : ℚ) ∧
      (toTransactionItem item).quantity = item.quantity ∧
      (toTransactionItem item).freeItemsReceived = item.freeItems :=
  checkout_transaction_spec cartAfterAdd2 "CASH" none 0 demoTransaction
    demo_checkout_eq

/-- C8: checkout of a cart with no lines fails with the EMPTY_CART error,
requests no deduction, creates no transaction, and leaves the cart as it
was. -/
theorem checkout_empty_cart (cart : Cart) (paymentMethodRaw : String)
    (notes : Option String) (walletBalance : ℚ) (h : cart.items = []) :
    (checkout cart paymentMethodRaw notes walletBalance).result =
        Except.error CheckoutError.cartEmpty ∧
    (checkout cart paymentMethodRaw notes walletBalance).deductRequested = none ∧
    (checkout cart paymentMethodRaw notes walletBalance).cartAfter = some cart := by
  unfold checkout
  rw [if_pos (by simp [h])]
  exact ⟨rfl, rfl, rfl⟩

theorem checkout_empty_cart_witness :
    (checkout emptyCart "CASH" none 0).result =
        Except.error CheckoutError.cartEmpty ∧
    (checkout emptyCart "CASH" none 0).deductRequested = none ∧
    (checkout emptyCart "CASH" none 0).cartAfter = some emptyCart :=
  checkout_empty_cart emptyCart "CASH" none 0 rfl

/-- C9: a WALLET checkout with reported balance strictly below the cart's
final price fails with the insufficient-balance error, requests no
deduction, creates no transaction, and leaves the cart intact. -/
theorem checkout_insufficient_balance (cart : Cart) (paymentMethodRaw : String)
    (notes : Option String) (walletBalance : ℚ)
    (hne : cart.items ≠ [])
    (hpm : toPaymentMethod (jsToUpper paymentMethodRaw) =
      some PaymentMethod.WALLET)
    (hbal : walletBalance < cart.finalPrice) :
    (checkout cart paymentMethodRaw notes walletBalance).result =
        Except.error
          (CheckoutError.walletPaymentFailed insufficientBalanceMessage) ∧
    (checkout cart paymentMethodRaw notes walletBalance).deductRequested
        = none ∧
    (checkout cart paymentMethodRaw notes walletBalance).cartAfter
        = some cart := by
  unfold checkout
  rw [if_neg (by simp [hne]), hpm]
  dsimp only
  rw [if_pos rfl, if_pos hbal]
  exact ⟨rfl, rfl, rfl⟩

theorem checkout_insufficient_balance_witness :
    (checkout cartAfterAdd2 "WALLET" none 5).result =
        Except.error
          (CheckoutError.walletPaymentFailed insufficientBalanceMessage) ∧
    (checkout cartAfterAdd2 "WALLET" none 5).deductRequested = none ∧
    (checkout cartAfterAdd2 "WALLET" none 5).cartAfter = some cartAfterAdd2 :=
  checkout_insufficient_balance cartAfterAdd2 "WALLET" none 5 (by decide)
    (by decide) (by decide)

/-! ## The stock precondition -/

/-- C10: `addToCart`'s stock check compares `stockQuantity` only with the
requested incremental quantity — for any cart, however many units it
already holds, the add succeeds exactly when the item is in stock and
`requested ≤ stockQuantity` — and `updateCartItem` performs no stock check
at all: it succeeds whenever a line exists, whatever the quantity. -/
theorem stock_check_incremental_only :
    (∀ (catalog : String → Option Fruit) (cart : Cart) (fruitId : String)
        (quantity : Int) (fruit : Fruit),
      catalog fruitId = some fruit →
      ((addToCart catalog cart fruitId quantity).isSome = true ↔
        (fruit.inStock = true ∧ quantity ≤ fruit.stockQuantity))) ∧
    (∀ (cart : Cart) (fruitId : String) (quantity : Int),
      cart.items.findIdx (fun item => item.fruitId == fruitId)
          < cart.items.length →
      (updateCartItem cart fruitId quantity).isSome = true) := by
  constructor
  · intro catalog cart fruitId quantity fruit hcat
    unfold addToCart
    rw [hcat]
    dsimp only
    by_cases hstock : ¬fruit.inStock ∨ fruit.stockQuantity < quantity
    · rw [if_pos hstock]
      simp only [Option.isSome_none, Bool.false_eq_true, false_iff]
      rintro ⟨h1, h2⟩
      rcases hstock with hs | hs
      · exact hs h1
      · omega
    · rw [if_neg hstock]
      push_neg at hstock
      by_cases hidx : cart.items.findIdx (fun item => item.fruitId == fruitId)
          < cart.items.length
      · rw [dif_pos hidx]
        exact iff_of_true rfl ⟨hstock.1, by omega⟩
      · rw [dif_neg hidx]
        exact iff_of_true rfl ⟨hstock.1, by omega⟩
  · intro cart fruitId quantity h
    unfold updateCartItem
    dsimp only
    rw [dif_pos h]
    by_cases hq : quantity ≤ 0
    · rw [if_pos hq]
      rfl
    · rw [if_neg hq]
      rfl

theorem stock_check_incremental_only_witness :
    limitedFruit.stockQuantity < 3 + 2 + 3 ∧
    (addToCart limitedCatalog pearCart "pear" 3).isSome = true ∧
    (updateCartItem pearCart "pear" 50).isSome = true :=
  ⟨by decide,
   (stock_check_incremental_only.1 limitedCatalog pearCart "pear" 3
      limitedFruit rfl).mpr (by decide),
   stock_check_incremental_only.2 pearCart "pear" 50 (by decide)⟩
